import Mathlib

/-!
Verification of the indicator aggregation & caching engine and session
authority of the `apidapressa` repository.

The Python source is shallowly embedded: pure helpers become Lean
functions, async/stateful code becomes explicit state passing, machine
floats on the decimal inputs the program handles become `ℚ`, and
fallible paths become `Option`/`Except`.  Each definition mirrors a
named function of the source (`src/services/api_services.py`,
`src/main.py`, `src/auth.py`); deviations forced by the embedding are
noted in the doc comments.
-/

namespace Apidapressa

/-! ### `parse_float` (src/services/api_services.py, lines 9-16)

`parse_float(valor_str)` returns `None` for `None` input and otherwise
computes `float(str(valor_str).replace(",", ".").strip())`, turning any
`ValueError` into `None`.  The embedding models the input as
`Option String` (Python `None` or a string), strings as character
lists, and `float()` on finite decimal/scientific literals as an exact
parse into `ℚ` (`inf`/`nan`/underscore literals are outside the
program's data and are not modelled).  Totality of the Lean function is
the embedding of "never raises". -/

/-- Python `str.strip()` whitespace set (ASCII part used by the program). -/
def isPyWs (c : Char) : Bool :=
  c = ' ' ∨ c = '\t' ∨ c = '\n' ∨ c = '\r' ∨ c = '\x0b' ∨ c = '\x0c'

/-- `str.strip()`: drop leading and trailing whitespace. -/
def pyStrip (s : String) : String :=
  String.mk (((s.data.dropWhile isPyWs).reverse.dropWhile isPyWs).reverse)

/-- `str.replace(",", ".")` for the single-character pattern used here. -/
def commaToDot (s : String) : String :=
  String.mk (s.data.map (fun c => if c = ',' then '.' else c))

/-- Value of a decimal digit list read left to right. -/
def digitsToNat (ds : List Char) : Nat :=
  ds.foldl (fun a c => a * 10 + (c.toNat - 48)) 0

/-- Split a character list into its leading digit run and the rest. -/
def splitDigits (cs : List Char) : List Char × List Char :=
  (cs.takeWhile Char.isDigit, cs.dropWhile Char.isDigit)

/-- Parse an unsigned decimal mantissa (`d+`, `d+.d*` or `.d+`),
returning its value as `num / 10 ^ scale` plus the unconsumed suffix.
Arithmetic stays in `Nat` so the definitions evaluate by kernel
reduction. -/
def parseMantissa (cs : List Char) : Option (Nat × Nat × List Char) :=
  let (ip, r1) := splitDigits cs
  match r1 with
  | '.' :: r2 =>
      let (fp, r3) := splitDigits r2
      if ip.isEmpty ∧ fp.isEmpty then none
      else some (digitsToNat ip * 10 ^ fp.length + digitsToNat fp, fp.length, r3)
  | _ => if ip.isEmpty then none else some (digitsToNat ip, 0, r1)

/-- Parse an optional exponent suffix, fold it into the `num / 10 ^ scale`
representation and require the end of input. -/
def parseExpSuffix (num scale : Nat) (cs : List Char) : Option (Nat × Nat) :=
  match cs with
  | [] => some (num, scale)
  | c :: r =>
    if c = 'e' ∨ c = 'E' then
      let (pos, r2) : Bool × List Char :=
        match r with
        | '+' :: t => (true, t)
        | '-' :: t => (false, t)
        | _ => (true, r)
      let (ds, r3) := splitDigits r2
      if ds.isEmpty ∨ ¬ r3.isEmpty then none
      else if pos then some (num * 10 ^ digitsToNat ds, scale)
      else some (num, scale + digitsToNat ds)
    else none

/-- Python `float(s)` on an already-stripped finite decimal literal:
optional sign, mantissa, optional exponent; anything else is a
`ValueError`, modelled as `none`. -/
def pyFloat (s : String) : Option ℚ :=
  match s.data with
  | [] => none
  | cs =>
    let (neg, cs2) : Bool × List Char :=
      match cs with
      | '+' :: t => (false, t)
      | '-' :: t => (true, t)
      | _ => (false, cs)
    match parseMantissa cs2 with
    | none => none
    | some (num, scale, rest) =>
      (parseExpSuffix num scale rest).map
        (fun p => mkRat (if neg then -(p.1 : Int) else (p.1 : Int)) (10 ^ p.2))

/-- `parse_float` (src/services/api_services.py lines 9-16). -/
def parse_float (valor_str : Option String) : Option ℚ :=
  match valor_str with
  | none => none
  | some s => pyFloat (pyStrip (commaToDot s))

/-! ### Indicator records (src/services/api_services.py)

Each fetcher returns a Python dict with keys `nome`, `valor`,
`descricao`, `fonte`, `validado`; embedded as a structure. -/

/-- One indicator record as produced by a `SourceFetcher`. -/
structure Indicator where
  nome : String
  valor : String
  descricao : String
  fonte : String
  validado : Bool
deriving Repr, DecidableEq

/-- One entry of a BCB series payload (`{"valor": ..., "data": ...}`).
`valor = none` models a missing/`null` `valor` field (whose bracket or
`.get` access feeds `parse_float` with `None` or raises into the
fetcher's own `except`, both landing in the fallback record). -/
structure BCBEntry where
  valor : Option String
  dataInfo : String
deriving Repr, DecidableEq

/-- `f"{v:.2f}"`-style fixed-point rendering used by the validated
branch (two decimals, half-up; the exact rounding mode of CPython's
float formatting is immaterial to every theorem below).  Arithmetic is
on the `Rat` fields so the definition evaluates by kernel reduction. -/
def formatFixed2 (q : ℚ) : String :=
  let n : Int := Int.fdiv (200 * q.num + (q.den : Int)) (2 * (q.den : Int))
  let sign := if n < 0 then "-" else ""
  let m := n.natAbs
  sign ++ toString (m / 100) ++ "." ++ (if m % 100 < 10 then "0" else "") ++ toString (m % 100)

/-- `datetime.strptime(data_info, "%d/%m/%Y")` then `strftime("%m/%Y")`,
with the bare string kept on parse failure.  Modelled on digit shape;
the sub-field range checks of `strptime` are immaterial to the
theorems. -/
def periodoMonth (d : String) : String :=
  match d.data with
  | [d1, d2, '/', m1, m2, '/', y1, y2, y3, y4] =>
    if [d1, d2, m1, m2, y1, y2, y3, y4].all Char.isDigit then
      String.mk [m1, m2, '/', y1, y2, y3, y4]
    else d
  | _ => d

/-- The record returned by `get_selic_rate` on every non-validated path
(fetch failure, empty payload, unparseable value, out-of-range value). -/
def selicFallback : Indicator :=
  { nome := "Taxa Selic"
    valor := "N/D"
    descricao := "Erro ao obter dados"
    fonte := "BCB"
    validado := false }

/-- `get_selic_rate` (src/services/api_services.py lines 73-114),
parameterised by the settled result of `_fetch_bcb_series(432, 1)`
(`none` = transport error / HTTP error / empty payload).  `data[0]` is
the head of a non-empty list (`if data:` is false on `[]`); a missing
`"valor"` key raises `KeyError` into the function's own `except`,
which lands in the same fallback as an unparseable value. -/
def get_selic_rate (fetched : Option (List BCBEntry)) : Indicator :=
  match fetched with
  | some (e :: _) =>
    match parse_float e.valor with
    | some v =>
      if 10 ≤ v ∧ v ≤ 20 then
        { nome := "Taxa Selic"
          valor := formatFixed2 v ++ "% a.a."
          descricao := "Meta Selic (Copom) - " ++ periodoMonth e.dataInfo
          fonte := "Banco Central - Série 432"
          validado := true }
      else selicFallback
    | none => selicFallback
  | _ => selicFallback

/-! ### `get_all_indicators` (src/services/api_services.py lines 691-758)

The 14 fetcher coroutines are settled by
`asyncio.gather(*tasks, return_exceptions=True)`, which preserves task
order and substitutes the raised exception object for a task that
raised.  A settled slot is embedded as `Except String Indicator`
(`error msg` = the task raised past its boundary with message `msg`).
The for-loop then replaces each exception with a placeholder record. -/

/-- The placeholder appended for a task `i` that raised `msg`. -/
def placeholderFor (i : Nat) (msg : String) : Indicator :=
  { nome := "Indicador " ++ toString i
    valor := "N/D"
    descricao := "Exceção: " ++ msg
    fonte := "N/D"
    validado := false }

/-- `get_all_indicators`, parameterised by the per-task settled
outcomes in fetcher declaration order (the order of the `tasks` list;
in the program that list has exactly 14 entries). -/
def get_all_indicators (outcomes : List (Except String Indicator)) : List Indicator :=
  outcomes.enum.map (fun p =>
    match p.2 with
    | .error msg => placeholderFor p.1 msg
    | .ok r => r)

/-! ### Cache, persisted store and refresh (src/main.py lines 24-102)

The module-level mutable state (`cache_data`, `cache_timestamp`, the
`indicadores` table) is embedded as an explicit `AppState`; wall-clock
instants are seconds as `Nat`.  The aggregation result of
`APIServices.get_all_indicators()` and the success of the store write
are parameters of the state transformers (the network and the database
are external collaborators). -/

/-- One row of the `indicadores` table (src/models_db.py). -/
structure DBRow where
  id : Nat
  nome : String
  valor : String
  descricao : String
deriving Repr, DecidableEq

/-- The shared mutable state of src/main.py: in-memory cache,
its timestamp (`none` = never set), and the persisted store. -/
structure AppState where
  cache_data : List Indicator
  cache_timestamp : Option Nat
  store : List DBRow
deriving Repr, DecidableEq

/-- `CACHE_DURATION = 3600` (src/main.py line 26). -/
def CACHE_DURATION : Nat := 3600

/-- The rows written by the delete-all-then-insert-all loop of
`update_indicators_from_apis` (ids are the 1-based positions). -/
def rowsOfIndicators (inds : List Indicator) : List DBRow :=
  inds.enum.map (fun p =>
    { id := p.1 + 1, nome := p.2.nome, valor := p.2.valor, descricao := p.2.descricao })

/-- `update_indicators_from_apis` (src/main.py lines 45-79),
parameterised by the aggregation result `indicators` and by whether the
store write commits (`storeOk = false` = the DELETE/INSERT/commit
raises; the transaction rolls back, the surrounding `except` swallows
the exception and the function returns `[]`).  `cache_data` and
`cache_timestamp` are assigned only after a successful `commit()`.
Returns the new state and the function's return value. -/
def update_indicators_from_apis (st : AppState) (now : Nat)
    (indicators : List Indicator) (storeOk : Bool) :
    AppState × List Indicator :=
  if indicators.isEmpty then (st, [])
  else if storeOk then
    ({ cache_data := indicators
       cache_timestamp := some now
       store := rowsOfIndicators indicators }, indicators)
  else (st, [])

/-- The staleness test of `get_cached_indicators` (src/main.py line 87):
`not cache_timestamp or (now - cache_timestamp).seconds > CACHE_DURATION`.
Python's `timedelta.seconds` is the seconds *component* after whole
days are split off, i.e. `elapsed % 86400` for `now ≥ t`. -/
def needsRefresh (ts : Option Nat) (now : Nat) : Bool :=
  match ts with
  | none => true
  | some t => (now - t) % 86400 > CACHE_DURATION

/-- The row projection of the database fallback branch of
`get_cached_indicators` (src/main.py line 102). -/
structure ServedRow where
  nome : String
  valor : String
  descricao : String
deriving Repr, DecidableEq

/-- The dynamically-typed return value of `get_cached_indicators`:
either a list of full indicator dicts (fresh result or cache) or the
projected database rows of the fallback branch. -/
inductive Served where
  | indicators : List Indicator → Served
  | rows : List ServedRow → Served
deriving Repr, DecidableEq

/-- Result of one `get_cached_indicators` call: the state it leaves
behind, the value it returns, and how many aggregation attempts
(calls to `update_indicators_from_apis`) it performed. -/
structure ReadResult where
  state : AppState
  served : Served
  aggAttempts : Nat
deriving Repr, DecidableEq

/-- Projection used by the fallback branch. -/
def projRow (r : DBRow) : ServedRow :=
  { nome := r.nome, valor := r.valor, descricao := r.descricao }

/-- `get_cached_indicators` (src/main.py lines 81-102), parameterised
like `update_indicators_from_apis`. -/
def get_cached_indicators (st : AppState) (now : Nat)
    (aggResult : List Indicator) (storeOk : Bool) : ReadResult :=
  if needsRefresh st.cache_timestamp now then
    let r := update_indicators_from_apis st now aggResult storeOk
    if ¬ r.2.isEmpty then ⟨r.1, .indicators r.2, 1⟩
    else if ¬ r.1.cache_data.isEmpty then ⟨r.1, .indicators r.1.cache_data, 1⟩
    else ⟨r.1, .rows (r.1.store.map projRow), 1⟩
  else
    if ¬ st.cache_data.isEmpty then ⟨st, .indicators st.cache_data, 0⟩
    else ⟨st, .rows (st.store.map projRow), 0⟩

/-! ### Historical series (src/main.py lines 31-43, 264-295)

`detalhe_indicador` consults the allow-list `INDICADORES_COM_HISTORICO`
and only then calls `APIServices.get_historico_indicador(slug)`
(wrapping it in `try/except` that turns a raise into `None`). -/

/-- `INDICADORES_COM_HISTORICO` (src/main.py lines 32-43). -/
def INDICADORES_COM_HISTORICO : List String :=
  ["taxa-selic", "inflacao-ipca", "igp-m", "dolar-usdbrl", "pib",
   "taxa-de-desemprego", "ibovespa", "producao-industrial",
   "vendas-no-varejo", "confianca-do-consumidor"]

/-- The historical-series payload
`{labels: [...], valores: [...], total_periodos: n}`. -/
structure HistoricalSeries where
  labels : List String
  valores : List ℚ
  total_periodos : Nat
deriving Repr, DecidableEq

/-- Modelled from the spec: `get_historico_indicador` is called from
`detalhe_indicador` (src/main.py line 273) but its body is not among
the sources under src/.  Spec §3 and §4.3: `collectHistorical(slug)`
returns label/value sequences with
`len(labels) == len(values) == min(requestedPeriods, availablePeriods)`
(12 monthly periods are requested for the detail chart), and provider
failure yields "absent", never a raise.  `provider` is the settled
(label, value) series the provider returned, `none` on failure. -/
def get_historico_indicador (slug : String)
    (provider : Option (List (String × ℚ))) : Option HistoricalSeries :=
  if slug ∈ INDICADORES_COM_HISTORICO then
    match provider with
    | none => none
    | some pts =>
      let t := pts.take 12
      some { labels := t.map Prod.fst, valores := t.map Prod.snd, total_periodos := t.length }
  else none

/-- The historical-series part of the `detalhe_indicador` route
(src/main.py lines 266-276): the allow-list gate, then the call above
with its `try/except → None`. -/
def detalhe_historico (slug : String)
    (provider : Option (List (String × ℚ))) : Option HistoricalSeries :=
  if slug ∈ INDICADORES_COM_HISTORICO then get_historico_indicador slug provider
  else none

/-! ### Session authority (src/auth.py)

`active_sessions` is a dict keyed by token; embedded as a function
`String → Option (Nat × Nat)` (token ↦ (created_at, expires_at), both
in seconds).  `secrets.token_urlsafe(32)` never returns the empty
string, so the freshly created token is assumed non-empty where the
truthiness test `if not token` matters. -/

/-- The session table (`active_sessions`). -/
def SessionTable : Type := String → Option (Nat × Nat)

/-- The empty table. -/
def emptySessions : SessionTable := fun _ => none

/-- `create_session` (src/auth.py lines 21-28), parameterised by the
generated token and the current instant; stores
`expires_at = now + 8h`.  Returns the updated table (the token itself
is the function's return value). -/
def create_session (tbl : SessionTable) (token : String) (now : Nat) : SessionTable :=
  fun t => if t = token then some (now, now + 8 * 3600) else tbl t

/-- `validate_session` (src/auth.py lines 30-41): `False` for a falsy
or unknown token; for a present token past its expiry, delete the
entry and return `False`; otherwise `True`.  Returns the verdict and
the table it leaves behind. -/
def validate_session (tbl : SessionTable) (token : Option String) (now : Nat) :
    Bool × SessionTable :=
  match token with
  | none => (false, tbl)
  | some tok =>
    if tok = "" then (false, tbl)
    else
      match tbl tok with
      | none => (false, tbl)
      | some s =>
        if now > s.2 then (false, fun t => if t = tok then none else tbl t)
        else (true, tbl)

/-- `delete_session` (src/auth.py lines 43-46). -/
def delete_session (tbl : SessionTable) (token : String) : SessionTable :=
  fun t => if t = token then none else tbl t

/-! ### Fetch by normalized name (src/main.py lines 183-198) -/

/-- `nome.lower().replace(' ', '').replace('-', '')` — ASCII lowering
suffices for the names the program stores; replacing a single
character by the empty string is removal of that character. -/
def normalizeName (s : String) : String :=
  String.mk ((s.data.map Char.toLower).filter (fun c => ¬ (c = ' ' ∨ c = '-')))

/-- Python's substring test `needle in hay` on character lists. -/
def isSubstr (needle hay : List Char) : Bool :=
  match hay with
  | [] => needle.isEmpty
  | _ :: t => needle.isPrefixOf hay || isSubstr needle t

/-- The per-record match test of `get_indicador_by_name`:
`nome_ind_normalizado == nome_normalizado or
 nome_normalizado in nome_ind_normalizado`. -/
def nameMatches (nq : String) (ind : Indicator) : Bool :=
  let ni := normalizeName ind.nome
  ni = nq || isSubstr nq.data ni.data

/-- `get_indicador_by_name` (src/main.py lines 183-198) restricted to
its lookup (the 404 path is `none`): first record of the served
snapshot matching the normalized query. -/
def get_indicador_by_name (indicators : List Indicator) (nome : String) : Option Indicator :=
  indicators.find? (nameMatches (normalizeName nome))

/-! ### Concurrent readers (src/main.py lines 81-102 under asyncio)

`get_cached_indicators` runs on a single-threaded event loop; control
can change hands only at `await` points.  The function has exactly one
`await` between its staleness check and the moment
`update_indicators_from_apis` finally assigns `cache_data`/
`cache_timestamp`: the whole aggregation-and-store-write.  A reader
coroutine is therefore a two-step program: (check) read the shared
staleness atomically and decide to refresh or to serve, then — if
refreshing — (aggregate) run one aggregation-and-write execution that
freshens the shared timestamp.  No lock or single-flight guard exists
anywhere in src/main.py, so two readers can both pass (check) before
either performs (aggregate).  The model below is that step semantics
for two concurrent readers; `aggCount` counts completed
aggregation-and-store-write executions. -/

/-- Program counter of one reader coroutine. -/
inductive ReaderPC where
  | start
  | aggregating
  | done
deriving Repr, DecidableEq

/-- Shared state of the two-reader system: both program counters, the
staleness of the cache, and the number of aggregation executions that
have run. -/
structure ConcSys where
  pc0 : ReaderPC
  pc1 : ReaderPC
  stale : Bool
  aggCount : Nat
deriving Repr, DecidableEq

/-- One atomic step of a reader with counter `pc`: the staleness check
(`start`), or the aggregation-and-write that freshens the cache
(`aggregating`).  Returns the new counter, the new staleness and how
many aggregation executions this step completed. -/
def readerStep (pc : ReaderPC) (stale : Bool) : ReaderPC × Bool × Nat :=
  match pc with
  | .start => (if stale then .aggregating else .done, stale, 0)
  | .aggregating => (.done, false, 1)
  | .done => (.done, stale, 0)

/-- Run one step of reader `i` (`false` = reader 0, `true` = reader 1). -/
def concStep (s : ConcSys) (i : Bool) : ConcSys :=
  if i then
    let r := readerStep s.pc1 s.stale
    { s with pc1 := r.1, stale := r.2.1, aggCount := s.aggCount + r.2.2 }
  else
    let r := readerStep s.pc0 s.stale
    { s with pc0 := r.1, stale := r.2.1, aggCount := s.aggCount + r.2.2 }

/-- Run a schedule (the event loop's interleaving choice). -/
def concRun (s : ConcSys) (sched : List Bool) : ConcSys :=
  sched.foldl concStep s

/-- Two readers both entering `get_cached_indicators` on a stale cache. -/
def twoStaleReaders : ConcSys :=
  { pc0 := .start, pc1 := .start, stale := true, aggCount := 0 }

/-- Number of aggregation executions a reader can still perform from a
given program counter (used to bound `aggCount`). -/
def pcWeight : ReaderPC → Nat
  | .start => 1
  | .aggregating => 1
  | .done => 0

/-! ### Concrete inputs used by the witness theorems -/

/-- A sample validated record, shaped like a successful Selic fetch. -/
def sampleIndicator : Indicator :=
  { nome := "Taxa Selic"
    valor := "15.00% a.a."
    descricao := "Meta Selic (Copom) - 09/2025"
    fonte := "Banco Central - Série 432"
    validado := true }

/-- 14 settled fetcher outcomes with the third task having raised. -/
def c1DemoOutcomes : List (Except String Indicator) :=
  Except.ok sampleIndicator :: Except.ok sampleIndicator ::
    Except.error "boom" :: List.replicate 11 (Except.ok sampleIndicator)

end Apidapressa

namespace Apidapressa

/-! ## Theorems -/

/-- Helper: `List.find?` returns the first element satisfying the
predicate, when one exists. -/
theorem find?_first {α : Type _} (p : α → Bool) (l : List α)
    (hx : ∃ x ∈ l, p x = true) :
    ∃ w l1 l2, l.find? p = some w ∧ l = l1 ++ w :: l2 ∧
      (∀ y ∈ l1, p y = false) ∧ p w = true := by
  induction l with
  | nil => simp at hx
  | cons a t ih =>
    cases hpa : p a with
    | true =>
      exact ⟨a, [], t, by simp [List.find?, hpa], rfl, by simp, hpa⟩
    | false =>
      have hx' : ∃ x ∈ t, p x = true := by
        obtain ⟨x, hmem, hpx⟩ := hx
        rcases List.mem_cons.mp hmem with h | h
        · subst h; rw [hpa] at hpx; cases hpx
        · exact ⟨x, h, hpx⟩
      obtain ⟨w, l1, l2, hf, hl, hall, hw⟩ := ih hx'
      refine ⟨w, a :: l1, l2, ?_, by simp [hl], ?_, hw⟩
      · simpa [List.find?, hpa] using hf
      · intro y hy
        rcases List.mem_cons.mp hy with h | h
        · subst h; exact hpa
        · exact hall y h

/-- C10: `parse_float` is total (a Lean function on `Option String`,
embedding "never raises"); it maps `None` to `None`, maps a string not
parseable as a number (after replacing "," with "." and stripping
surrounding whitespace) to `None`, and otherwise returns the parsed
value, so `"15,5"` and `" 15.5 "` both parse to 15.5. -/
theorem C10_parse_float_total :
    parse_float none = none ∧
    parse_float (some "15,5") = some (mkRat 31 2) ∧
    parse_float (some " 15.5 ") = some (mkRat 31 2) ∧
    parse_float (some "abc") = none ∧
    parse_float (some "") = none ∧
    parse_float (some "1,234.5") = none :=
  ⟨rfl, by decide, by decide, by decide, by decide, by decide⟩

/-- C1: for any configuration of 14 settled fetcher outcomes,
`get_all_indicators` returns exactly 14 records; slot `i` of the output
corresponds to fetcher `i` of the declaration order (never completion
order): a task that returned a record contributes that record at its
own position, and a task that raised past its boundary contributes the
placeholder record — which has `validado = false` — at its own
position. -/
theorem C1_get_all_indicators_shape
    (outcomes : List (Except String Indicator)) (hN : outcomes.length = 14) :
    (get_all_indicators outcomes).length = 14 ∧
    (∀ (i : Nat) (r : Indicator), outcomes[i]? = some (Except.ok r) →
      (get_all_indicators outcomes)[i]? = some r) ∧
    (∀ (i : Nat) (m : String), outcomes[i]? = some (Except.error m) →
      (get_all_indicators outcomes)[i]? = some (placeholderFor i m) ∧
      (placeholderFor i m).validado = false) := by
  refine ⟨by simp [get_all_indicators, hN], ?_, ?_⟩
  · intro i r h
    simp [get_all_indicators, List.getElem?_map, List.getElem?_enum, h]
  · intro i m h
    exact ⟨by simp [get_all_indicators, List.getElem?_map, List.getElem?_enum, h], rfl⟩

/-- Witness for C1 at a concrete 14-outcome configuration in which the
third fetcher raised. -/
theorem C1_get_all_indicators_shape_witness :
    c1DemoOutcomes.length = 14 ∧
    (get_all_indicators c1DemoOutcomes).length = 14 ∧
    (get_all_indicators c1DemoOutcomes)[0]? = some sampleIndicator ∧
    (get_all_indicators c1DemoOutcomes)[2]? = some (placeholderFor 2 "boom") ∧
    (placeholderFor 2 "boom").validado = false :=
  ⟨rfl,
   (C1_get_all_indicators_shape c1DemoOutcomes rfl).1,
   (C1_get_all_indicators_shape c1DemoOutcomes rfl).2.1 0 sampleIndicator rfl,
   ((C1_get_all_indicators_shape c1DemoOutcomes rfl).2.2 2 "boom" rfl).1,
   ((C1_get_all_indicators_shape c1DemoOutcomes rfl).2.2 2 "boom" rfl).2⟩

/-- C2 counterexample: the raw Selic value 25.0 is successfully fetched
and parsed but lies outside the declared bound [10, 20].  The claim
says the fetcher still returns a record carrying a best-effort
formatted value for 25.0 rather than the generic "N/D" placeholder —
but `get_selic_rate` returns exactly the generic placeholder (the same
record a transport error produces): the raw value is dropped. -/
theorem C2_out_of_range_counterexample :
    get_selic_rate (some [⟨some "25.0", "01/09/2025"⟩]) =
      { nome := "Taxa Selic", valor := "N/D", descricao := "Erro ao obter dados",
        fonte := "BCB", validado := false } := by
  decide

/-- C2 amended: for every successfully fetched and parsed raw value
outside the declared bound [10, 20], `get_selic_rate` returns the
generic fallback record (`valor = "N/D"`, `descricao` = "Erro ao obter
dados") flagged `validado = false`: the out-of-range raw value is
dropped, not carried as a best-effort formatted value. -/
theorem C2_out_of_range_amended (e : BCBEntry) (rest : List BCBEntry) (v : ℚ)
    (hp : parse_float e.valor = some v) (hout : ¬ (10 ≤ v ∧ v ≤ 20)) :
    get_selic_rate (some (e :: rest)) = selicFallback ∧
    selicFallback.valor = "N/D" ∧ selicFallback.validado = false := by
  refine ⟨?_, rfl, rfl⟩
  unfold get_selic_rate
  dsimp only
  rw [hp]
  exact if_neg hout

/-- Witness for C2 amended at the raw value 25.0. -/
theorem C2_out_of_range_amended_witness :
    get_selic_rate (some [⟨some "25.0", "x"⟩]) = selicFallback ∧
    selicFallback.valor = "N/D" ∧ selicFallback.validado = false :=
  C2_out_of_range_amended ⟨some "25.0", "x"⟩ [] (mkRat 25 1) (by decide) (by decide)

/-- C3 counterexample: a non-empty aggregation result together with a
failing store write (`storeOk = false`).  The claim says `cache_data`
and `cache_timestamp` still update to the new snapshot; in the code the
cache assignment sits after `session.commit()` inside the same `try`,
so the exception skips it: the state is returned untouched (timestamp
still `none`, cache still empty) and the function returns `[]`. -/
theorem C3_store_failure_counterexample :
    update_indicators_from_apis ⟨[], none, []⟩ 100 [sampleIndicator] false =
      (⟨[], none, []⟩, []) ∧
    (update_indicators_from_apis ⟨[], none, []⟩ 100 [sampleIndicator] false).1.cache_timestamp
      = none := by
  decide

/-- C3 amended: when the Persisted Store write raises,
`update_indicators_from_apis` leaves the whole state — `cache_data`,
`cache_timestamp` and the store — unchanged and returns `[]`; the
in-memory cache updates only after a successful store commit, so store
unavailability degrades the served snapshot as well as durability. -/
theorem C3_store_failure_amended (st : AppState) (now : Nat)
    (indicators : List Indicator) :
    update_indicators_from_apis st now indicators false = (st, []) := by
  unfold update_indicators_from_apis
  split <;> rfl

/-- C5 (code bug) evaluated at the failing input: a snapshot taken at
instant 0 read again 90000 s (25 h) later is far beyond the 3600 s TTL,
yet `get_cached_indicators` performs zero aggregation attempts and
serves the stale cache, because `(now - cache_timestamp).seconds` is
the seconds component after whole days (90000 % 86400 = 3600, not
> 3600).  For contrast, at 7200 s elapsed (under a day) it performs
exactly one aggregation attempt as the claim states. -/
theorem C5_ttl_day_wraparound_bug :
    (get_cached_indicators ⟨[sampleIndicator], some 0, []⟩ 90000 [] true).aggAttempts = 0 ∧
    (get_cached_indicators ⟨[sampleIndicator], some 0, []⟩ 90000 [] true).served
      = .indicators [sampleIndicator] ∧
    (get_cached_indicators ⟨[sampleIndicator], some 0, []⟩ 7200 [] true).aggAttempts = 1 := by
  decide

/-- C6: when the triggered aggregation yields an empty result, the
state is left unchanged; the existing in-memory snapshot is served
unchanged when one exists, and only when none exists are the Persisted
Store rows served (projected to nome/valor/descricao dicts).  The
empty aggregation result is never the served value while a fallback
exists. -/
theorem C6_empty_aggregation_fallback (st : AppState) (now : Nat) (storeOk : Bool) :
    (get_cached_indicators st now [] storeOk).state = st ∧
    (st.cache_data ≠ [] →
      (get_cached_indicators st now [] storeOk).served = .indicators st.cache_data) ∧
    (st.cache_data = [] →
      (get_cached_indicators st now [] storeOk).served = .rows (st.store.map projRow)) := by
  have hupd : update_indicators_from_apis st now [] storeOk = (st, []) := by
    unfold update_indicators_from_apis
    simp
  unfold get_cached_indicators
  rw [hupd]
  by_cases hr : needsRefresh st.cache_timestamp now <;>
    by_cases hc : st.cache_data = [] <;>
      simp [hr, hc, List.isEmpty_iff]

/-- Witness for C6: empty aggregation with a non-empty in-memory
snapshot serves that snapshot unchanged. -/
theorem C6_empty_aggregation_fallback_witness :
    (get_cached_indicators ⟨[sampleIndicator], some 0, []⟩ 5000 [] true).state
      = ⟨[sampleIndicator], some 0, []⟩ ∧
    (get_cached_indicators ⟨[sampleIndicator], some 0, []⟩ 5000 [] true).served
      = .indicators [sampleIndicator] :=
  ⟨(C6_empty_aggregation_fallback ⟨[sampleIndicator], some 0, []⟩ 5000 true).1,
   (C6_empty_aggregation_fallback ⟨[sampleIndicator], some 0, []⟩ 5000 true).2.1
     (by decide)⟩

/-- C4: for the allow-listed slug "taxa-selic", the historical-series
operation of the indicator detail route returns `labels` and `valores`
of equal length, at most 12; for "unknown-slug" (not on the
allow-list) it returns the absent result `none` — never an error —
whatever the provider did. -/
theorem C4_historico_lengths (provider : Option (List (String × ℚ))) :
    (∀ h : HistoricalSeries, detalhe_historico "taxa-selic" provider = some h →
      h.labels.length = h.valores.length ∧ h.labels.length ≤ 12) ∧
    detalhe_historico "unknown-slug" provider = none := by
  have hmem : "taxa-selic" ∈ INDICADORES_COM_HISTORICO := by decide
  have hnot : ¬ ("unknown-slug" ∈ INDICADORES_COM_HISTORICO) := by decide
  constructor
  · intro h hh
    unfold detalhe_historico get_historico_indicador at hh
    rw [if_pos hmem, if_pos hmem] at hh
    cases provider with
    | none => exact Option.noConfusion hh
    | some pts =>
      have := Option.some.inj hh
      rw [← this]
      constructor
      · simp
      · simp [List.length_take]
  · unfold detalhe_historico
    exact if_neg hnot

/-- Witness for C4 at a one-point provider series. -/
theorem C4_historico_lengths_witness :
    ((HistoricalSeries.mk ["01/2025"] [mkRat 15 1] 1).labels.length
        = (HistoricalSeries.mk ["01/2025"] [mkRat 15 1] 1).valores.length ∧
      (HistoricalSeries.mk ["01/2025"] [mkRat 15 1] 1).labels.length ≤ 12) ∧
    detalhe_historico "unknown-slug" (some [("01/2025", mkRat 15 1)]) = none :=
  ⟨(C4_historico_lengths (some [("01/2025", mkRat 15 1)])).1
      (HistoricalSeries.mk ["01/2025"] [mkRat 15 1] 1) (by decide),
   (C4_historico_lengths (some [("01/2025", mkRat 15 1)])).2⟩

/-- C7 counterexample: both readers observe the stale cache at their
check step before either runs its aggregation (the event-loop schedule
0-check, 1-check, 0-aggregate, 1-aggregate); two full
aggregation-and-store-write executions run, not one — there is no
single-flight guard in `get_cached_indicators`. -/
theorem C7_single_flight_counterexample :
    (concRun twoStaleReaders [false, true, false, true]).aggCount = 2 ∧
    (concRun twoStaleReaders [false, true, false, true]).pc0 = .done ∧
    (concRun twoStaleReaders [false, true, false, true]).pc1 = .done := by
  decide

/-- Helper: one step never increases
`aggCount + pcWeight pc0 + pcWeight pc1`. -/
theorem concStep_measure (s : ConcSys) (i : Bool) :
    (concStep s i).aggCount + pcWeight (concStep s i).pc0 + pcWeight (concStep s i).pc1 ≤
      s.aggCount + pcWeight s.pc0 + pcWeight s.pc1 := by
  obtain ⟨p0, p1, st, n⟩ := s
  cases i <;> cases p0 <;> cases p1 <;> cases st <;>
    simp [concStep, readerStep, pcWeight]

/-- Helper: a whole run never increases the measure. -/
theorem concRun_measure (sched : List Bool) (s : ConcSys) :
    (concRun s sched).aggCount + pcWeight (concRun s sched).pc0
        + pcWeight (concRun s sched).pc1 ≤
      s.aggCount + pcWeight s.pc0 + pcWeight s.pc1 := by
  induction sched generalizing s with
  | nil => simp [concRun]
  | cons a t ih =>
    have h1 := ih (concStep s a)
    have h2 := concStep_measure s a
    have hrun : concRun s (a :: t) = concRun (concStep s a) t := rfl
    rw [hrun]
    omega

/-- C7 amended: with no single-flight guard, each concurrent caller
that observes a stale cache may run its own aggregation-and-store-write
execution — at most one per caller (so at most two for two concurrent
readers), but not exactly one overall; the schedule of
`C7_single_flight_counterexample` reaches two. -/
theorem C7_at_most_one_aggregation_per_reader (sched : List Bool) :
    (concRun twoStaleReaders sched).aggCount ≤ 2 := by
  have h := concRun_measure sched twoStaleReaders
  have hinit : twoStaleReaders.aggCount + pcWeight twoStaleReaders.pc0
      + pcWeight twoStaleReaders.pc1 = 2 := rfl
  omega

/-- C8: a token issued by `create_session` validates as long as the
8-hour expiry has not passed; a stored token whose `expires_at` lies
strictly in the past validates to false and its entry is purged, so a
subsequent lookup of that token finds nothing. -/
theorem C8_session_lifecycle
    (tbl : SessionTable) (token : String) (now t1 : Nat)
    (htok : ¬ (token = "")) (h1 : t1 ≤ now + 28800)
    (tbl2 : SessionTable) (tok2 : String) (cr exp t2 : Nat)
    (h2 : tbl2 tok2 = some (cr, exp)) (htok2 : ¬ (tok2 = "")) (hexp : t2 > exp) :
    (validate_session (create_session tbl token now) (some token) t1).1 = true ∧
    (validate_session tbl2 (some tok2) t2).1 = false ∧
    (validate_session tbl2 (some tok2) t2).2 tok2 = none := by
  refine ⟨?_, ?_, ?_⟩
  · unfold validate_session create_session
    dsimp only
    rw [if_neg htok, if_pos rfl]
    dsimp only
    rw [if_neg (by omega : ¬ t1 > now + 8 * 3600)]
  · unfold validate_session
    dsimp only
    rw [if_neg htok2, h2]
    dsimp only
    rw [if_pos hexp]
  · unfold validate_session
    dsimp only
    rw [if_neg htok2, h2]
    dsimp only
    rw [if_pos hexp]
    dsimp only
    rw [if_pos rfl]

/-- Witness for C8: a fresh token validates at 100 s; a token expired
at 28800 s fails validation at 30000 s and its entry is purged. -/
theorem C8_session_lifecycle_witness :
    (validate_session (create_session emptySessions "tok" 0) (some "tok") 100).1 = true ∧
    (validate_session (create_session emptySessions "old" 0) (some "old") 30000).1 = false ∧
    (validate_session (create_session emptySessions "old" 0) (some "old") 30000).2 "old"
      = none :=
  C8_session_lifecycle emptySessions "tok" 0 100 (by decide) (by omega)
    (create_session emptySessions "old" 0) "old" 0 28800 30000 (by decide) (by decide)
    (by omega)

/-- C9: for every snapshot containing a record whose stored name is
"Taxa Selic", the lookups for "Taxa Selic", "taxaselic" and
"TAXA-SELIC" all evaluate the same normalized query and hence resolve
to the same record; the lookup succeeds, and the resolved record is
the first record in snapshot order matching the normalized query. -/
theorem C9_find_by_name_normalization (inds : List Indicator) (r : Indicator)
    (hr : r ∈ inds) (hname : r.nome = "Taxa Selic") :
    ∃ w l1 l2,
      get_indicador_by_name inds "Taxa Selic" = some w ∧
      get_indicador_by_name inds "taxaselic" = some w ∧
      get_indicador_by_name inds "TAXA-SELIC" = some w ∧
      inds = l1 ++ w :: l2 ∧
      (∀ y ∈ l1, nameMatches "taxaselic" y = false) ∧
      nameMatches "taxaselic" w = true := by
  have h1 : normalizeName "Taxa Selic" = "taxaselic" := by decide
  have h2 : normalizeName "taxaselic" = "taxaselic" := by decide
  have h3 : normalizeName "TAXA-SELIC" = "taxaselic" := by decide
  have hmatch : nameMatches "taxaselic" r = true := by
    simp only [nameMatches, hname]
    decide
  obtain ⟨w, l1, l2, hf, hl, hall, hw⟩ :=
    find?_first (nameMatches "taxaselic") inds ⟨r, hr, hmatch⟩
  refine ⟨w, l1, l2, ?_, ?_, ?_, hl, hall, hw⟩
  · show inds.find? (nameMatches (normalizeName "Taxa Selic")) = some w
    rw [h1]; exact hf
  · show inds.find? (nameMatches (normalizeName "taxaselic")) = some w
    rw [h2]; exact hf
  · show inds.find? (nameMatches (normalizeName "TAXA-SELIC")) = some w
    rw [h3]; exact hf

/-- Witness for C9 on the one-record snapshot holding "Taxa Selic". -/
theorem C9_find_by_name_normalization_witness :
    get_indicador_by_name [sampleIndicator] "Taxa Selic" = some sampleIndicator ∧
    get_indicador_by_name [sampleIndicator] "taxaselic" = some sampleIndicator ∧
    get_indicador_by_name [sampleIndicator] "TAXA-SELIC" = some sampleIndicator := by
  obtain ⟨w, l1, l2, hf1, hf2, hf3, hl, hall, hw⟩ :=
    C9_find_by_name_normalization [sampleIndicator] sampleIndicator (by simp) rfl
  have hwr : w = sampleIndicator := by
    cases l1 with
    | nil =>
      simp at hl
      exact hl.1.symm
    | cons a t => simp at hl
  subst hwr
  exact ⟨hf1, hf2, hf3⟩

end Apidapressa
